import Mathlib

/-!
Verification of the control-loop state machine of `pnp.py` (arm-motion
supervisor).  The Python source is shallowly embedded: the shared state
object (`Shared`), the per-tick arbiter / goal-clamp logic of
`run_control_loop`, the collision scan over the contact list, the RUN-branch
motion stepping with safe-configuration rollback, the rate-limited robot
output gate, and the HTTP handlers `nudge`, `set_goal`, `go`.
Machine floats are modelled as rationals; time stamps are rationals.
-/

namespace Pnp

/-- A 3-D Cartesian point (meters), the type of `shared.goal_xyz`. -/
structure V3 where
  x : ℚ
  y : ℚ
  z : ℚ
deriving DecidableEq, Repr

/-- Scalar `np.clip`: `min (max v lo) hi`. -/
def clip (v lo hi : ℚ) : ℚ := min (max v lo) hi

/-- Lower workspace bound, `low = (-0.1, -0.6, 0.4)` in `run_control_loop`. -/
def lowBound : V3 := ⟨-1/10, -6/10, 4/10⟩

/-- Upper workspace bound, `high = (0.6, 0.6, 1.4)` in `run_control_loop`. -/
def highBound : V3 := ⟨6/10, 6/10, 14/10⟩

/-- Componentwise `np.clip(goal, low, high)`. -/
def clamp3 (g : V3) : V3 :=
  ⟨clip g.x lowBound.x highBound.x,
   clip g.y lowBound.y highBound.y,
   clip g.z lowBound.z highBound.z⟩

/-- The shared cross-thread state (`class Shared` in `pnp.py`): goal,
output enables, the two safety booleans, published mode label and the
manual-override deadline. -/
structure Shared where
  goal : V3
  out_sim : Bool
  out_robot : Bool
  hold_mode : Bool
  collision_freeze : Bool
  mode_text : String
  manual_until : ℚ
deriving DecidableEq, Repr

/-- The constructor `Shared.__init__(init_goal)`. -/
def initShared (g : V3) : Shared :=
  { goal := g, out_sim := true, out_robot := false, hold_mode := false,
    collision_freeze := false, mode_text := "HOLD", manual_until := 0 }

/-- One tick's effect of `run_control_loop` on the `Shared` fields, in
source order: clamp-and-persist the goal, then (given this tick's
`collided` scan result, the distance to goal and the current time `now`)
the collision / hysteresis / override cascade of lines 236-251, and
finally the mode-label publication of line 309.  The simulation stepping
and the robot send in between touch none of these fields. -/
def tickFlags (s0 : Shared) (collided : Bool) (dist now : ℚ) : Shared :=
  let s1 := { s0 with goal := clamp3 s0.goal }
  let s2 := if collided then { s1 with collision_freeze := true } else s1
  let s3 :=
    if s2.collision_freeze then { s2 with hold_mode := true }
    else if !s2.hold_mode && decide (dist < 3/100) then { s2 with hold_mode := true }
    else if s2.hold_mode && decide (5/100 < dist) then
      { s2 with hold_mode := false, collision_freeze := false }
    else s2
  let s4 :=
    if now < s3.manual_until then
      { s3 with hold_mode := false, collision_freeze := false }
    else s3
  { s4 with
    mode_text :=
      if s4.hold_mode then "HOLD" else if s4.collision_freeze then "COLL" else "RUN " }

/-- Body of the `/nudge` handler applied under the lock: add `delta` to the named axis,
unknown axes fall through with no change (lines 402-408). -/
def nudgeApply (s : Shared) (axis : String) (delta : ℚ) : Shared :=
  if axis = "x" then { s with goal := ⟨s.goal.x + delta, s.goal.y, s.goal.z⟩ }
  else if axis = "y" then { s with goal := ⟨s.goal.x, s.goal.y + delta, s.goal.z⟩ }
  else if axis = "z" then { s with goal := ⟨s.goal.x, s.goal.y, s.goal.z + delta⟩ }
  else s

/-- Body of the `/set_goal` handler applied under the lock: store the raw point, clear
both safety flags, extend the override window to `now + 0.5`
(lines 417-422). -/
def setGoalApply (s : Shared) (x y z now : ℚ) : Shared :=
  { s with goal := ⟨x, y, z⟩, collision_freeze := false, hold_mode := false,
           manual_until := now + 1/2 }

/-- The `/go` handler: clear both safety flags (lines 428-430). -/
def goApply (s : Shared) : Shared :=
  { s with collision_freeze := false, hold_mode := false }

/-- The operations that can touch the arbiter-relevant shared state: a
control-loop tick (with its scan result, distance and wall-clock time),
and the external `set_goal`, `nudge` and `go` commands. -/
inductive Op where
  | tick (collided : Bool) (dist now : ℚ)
  | setGoal (x y z now : ℚ)
  | nudgeOp (axis : String) (delta : ℚ)
  | go
deriving DecidableEq, Repr

/-- Interleaving semantics: apply one operation to the shared state. -/
def applyOp (s : Shared) : Op → Shared
  | .tick c d n => tickFlags s c d n
  | .setGoal x y z now => setGoalApply s x y z now
  | .nudgeOp a delta => nudgeApply s a delta
  | .go => goApply s

/-- Run a sequence of interleaved operations. -/
def runOps (s : Shared) (ops : List Op) : Shared := ops.foldl applyOp s

/-- The hysteresis update of `hold_mode` in isolation (lines 241-244):
enter HOLD below 0.03, leave HOLD above 0.05, otherwise keep. -/
def hystHold (h : Bool) (d : ℚ) : Bool :=
  if !h && decide (d < 3/100) then true
  else if h && decide (5/100 < d) then false
  else h

/-- End-of-tick value of `collision_freeze`: set by a collision, kept
unless the override window is still open. -/
def freezeAfter (s : Shared) (c : Bool) (now : ℚ) : Bool :=
  !decide (now < s.manual_until) && (s.collision_freeze || c)

/-- End-of-tick value of `hold_mode`. -/
def holdAfter (s : Shared) (c : Bool) (d now : ℚ) : Bool :=
  if now < s.manual_until then false
  else if s.collision_freeze || c then true
  else hystHold s.hold_mode d

/-- The label published at line 309, as a function of the two flags. -/
def labelOf (h f : Bool) : String :=
  if h then "HOLD" else if f then "COLL" else "RUN "

set_option linter.unnecessarySeqFocus false in
/-- Closed-form characterisation of one tick's effect on `Shared`. -/
theorem tickFlags_eq (s : Shared) (c : Bool) (d n : ℚ) :
    tickFlags s c d n =
      { goal := clamp3 s.goal, out_sim := s.out_sim, out_robot := s.out_robot,
        hold_mode := holdAfter s c d n,
        collision_freeze := freezeAfter s c n,
        mode_text := labelOf (holdAfter s c d n) (freezeAfter s c n),
        manual_until := s.manual_until } := by
  obtain ⟨g, os, orb, hm, cf, mt, mu⟩ := s
  by_cases hw : n < mu <;>
    cases hm <;> cases cf <;> cases c <;>
      simp [tickFlags, holdAfter, freezeAfter, hystHold, labelOf, hw] <;>
        split_ifs <;> (try simp_all) <;> linarith

/-- A tick never changes the override deadline. -/
theorem tickFlags_manual_until (s : Shared) (c : Bool) (d n : ℚ) :
    (tickFlags s c d n).manual_until = s.manual_until := by
  rw [tickFlags_eq]

/-- A tick reads the goal clamped and persists the clamped value. -/
theorem tickFlags_goal (s : Shared) (c : Bool) (d n : ℚ) :
    (tickFlags s c d n).goal = clamp3 s.goal := by
  rw [tickFlags_eq]

/-- After any tick, `collision_freeze` implies `hold_mode`. -/
theorem tickFlags_freeze_imp_hold (s : Shared) (c : Bool) (d n : ℚ)
    (h : (tickFlags s c d n).collision_freeze = true) :
    (tickFlags s c d n).hold_mode = true := by
  rw [tickFlags_eq] at h ⊢
  simp only [freezeAfter, Bool.and_eq_true, Bool.not_eq_true', decide_eq_false_iff_not] at h
  simp [holdAfter, h.1, h.2]

/-- Outside the override window, a tick keeps a set `collision_freeze`. -/
theorem tickFlags_freeze_sticky (s : Shared) (c : Bool) (d n : ℚ)
    (hf : s.collision_freeze = true) (hn : s.manual_until ≤ n) :
    (tickFlags s c d n).collision_freeze = true := by
  rw [tickFlags_eq]
  simp [freezeAfter, hf, not_lt.mpr hn]

/-- A tick evaluated inside the override window clears both flags. -/
theorem tickFlags_override (s : Shared) (c : Bool) (d n : ℚ)
    (hn : n < s.manual_until) :
    (tickFlags s c d n).hold_mode = false ∧
      (tickFlags s c d n).collision_freeze = false := by
  rw [tickFlags_eq]
  constructor
  · simp [holdAfter, hn]
  · simp [freezeAfter, hn]

/-- Commands `set_goal`, `nudge` and `go` leave the safety flags in a state
satisfying the freeze-implies-hold invariant when it held before. -/
theorem applyOp_inv (s : Shared) (op : Op)
    (h : s.collision_freeze = true → s.hold_mode = true) :
    (applyOp s op).collision_freeze = true → (applyOp s op).hold_mode = true := by
  cases op with
  | tick c d n => exact tickFlags_freeze_imp_hold s c d n
  | setGoal x y z now => simp [applyOp, setGoalApply]
  | nudgeOp a delta =>
      simp only [applyOp, nudgeApply]
      split_ifs <;> exact h
  | go => simp [applyOp, goApply]

/-- Ops that the spec counts as external clearing events. -/
def isExternalClear : Op → Bool
  | .setGoal _ _ _ _ => true
  | .go => true
  | _ => false

/-- Holds when `op` is a control-loop tick evaluated at or after the deadline `u`. -/
def ticksOutside (u : ℚ) : Op → Bool
  | .tick _ _ n => decide (u ≤ n)
  | _ => false

/-- A run of ticks, each outside the override window, keeps a set
`collision_freeze`. -/
theorem runOps_ticks_sticky : ∀ (ops : List Op) (s : Shared),
    s.collision_freeze = true → ops.all (ticksOutside s.manual_until) = true →
    (runOps s ops).collision_freeze = true := by
  intro ops
  induction ops with
  | nil => intro s hf _; exact hf
  | cons op rest ih =>
      intro s hf hall
      simp only [List.all_cons, Bool.and_eq_true] at hall
      cases op with
      | tick c d n =>
          have hn : s.manual_until ≤ n := by
            simpa [ticksOutside] using hall.1
          have h1 := tickFlags_freeze_sticky s c d n hf hn
          have h2 := tickFlags_manual_until s c d n
          exact ih (tickFlags s c d n) h1 (by rw [h2]; exact hall.2)
      | setGoal x y z now => simp [ticksOutside] at hall
      | nudgeOp a delta => simp [ticksOutside] at hall
      | go => simp [ticksOutside] at hall

/-- A value already inside the band is fixed by `clip`. -/
theorem clip_of_mem (w lo hi : ℚ) (h1 : lo ≤ w) (h2 : w ≤ hi) :
    clip w lo hi = w := by
  unfold clip
  rw [max_eq_left h1, min_eq_left h2]

/-- Clipping with ordered bounds is idempotent and lands in the band. -/
theorem clip_spec (v lo hi : ℚ) (h : lo ≤ hi) :
    lo ≤ clip v lo hi ∧ clip v lo hi ≤ hi ∧
      clip (clip v lo hi) lo hi = clip v lo hi := by
  have h1 : lo ≤ clip v lo hi := le_min (le_max_right v lo) h
  have h2 : clip v lo hi ≤ hi := min_le_right _ _
  exact ⟨h1, h2, clip_of_mem _ _ _ h1 h2⟩

/-- Componentwise clamping is idempotent. -/
theorem clamp3_idem (g : V3) : clamp3 (clamp3 g) = clamp3 g := by
  simp only [clamp3]
  rw [(clip_spec g.x lowBound.x highBound.x (by norm_num [lowBound, highBound])).2.2,
      (clip_spec g.y lowBound.y highBound.y (by norm_num [lowBound, highBound])).2.2,
      (clip_spec g.z lowBound.z highBound.z (by norm_num [lowBound, highBound])).2.2]

/-- A tick in the band `[0.03, 0.05]`, outside the override window and
with no collision, fixes both flags. -/
theorem tick_band_fix (s : Shared) (d n : ℚ)
    (hf : s.collision_freeze = false) (hn : s.manual_until ≤ n)
    (h1 : 3/100 ≤ d) (h2 : d ≤ 5/100) :
    (tickFlags s false d n).hold_mode = s.hold_mode ∧
      (tickFlags s false d n).collision_freeze = false := by
  rw [tickFlags_eq]
  refine ⟨?_, ?_⟩
  · simp [holdAfter, hf, not_lt.mpr hn, hystHold, not_lt.mpr h1, not_lt.mpr h2]
  · simp [freezeAfter, hf]

/-- Folding ticks whose distances all lie in the hysteresis band never
moves `hold_mode` (no chatter). -/
theorem band_no_chatter (n : ℚ) : ∀ (ds : List ℚ) (s : Shared),
    s.collision_freeze = false → s.manual_until ≤ n →
    (∀ e ∈ ds, 3/100 ≤ e ∧ e ≤ 5/100) →
    (runOps s (ds.map fun e => Op.tick false e n)).hold_mode = s.hold_mode := by
  intro ds
  induction ds with
  | nil => intro s _ _ _; rfl
  | cons e rest ih =>
      intro s hf hn hmem
      have he := hmem e (List.mem_cons_self e rest)
      have hfix := tick_band_fix s e n hf hn he.1 he.2
      have hu := tickFlags_manual_until s false e n
      have := ih (tickFlags s false e n) hfix.2 (by rw [hu]; exact hn)
        (fun x hx => hmem x (List.mem_cons_of_mem e hx))
      simpa [runOps, hfix.1] using this

/-- C2.  With the manual-override window still open (`now < manual_until`),
the tick ends with `hold_mode = false`, `collision_freeze = false` and the
published mode "RUN ", regardless of this tick's collision flag, the
distance, and any previously set freeze. -/
theorem override_forces_run (s : Shared) (c : Bool) (d n : ℚ)
    (h : n < s.manual_until) :
    (tickFlags s c d n).hold_mode = false ∧
      (tickFlags s c d n).collision_freeze = false ∧
      (tickFlags s c d n).mode_text = "RUN " := by
  rw [tickFlags_eq]
  exact ⟨by simp [holdAfter, h], by simp [freezeAfter, h],
    by simp [labelOf, holdAfter, freezeAfter, h]⟩

/-- Witness for `override_forces_run` at a concrete frozen state. -/
theorem override_forces_run_witness :
    (tickFlags ⟨⟨0, 0, 1⟩, true, false, true, true, "HOLD", 1/2⟩ true (1/100) 0).hold_mode = false ∧
      (tickFlags ⟨⟨0, 0, 1⟩, true, false, true, true, "HOLD", 1/2⟩ true (1/100) 0).collision_freeze = false ∧
      (tickFlags ⟨⟨0, 0, 1⟩, true, false, true, true, "HOLD", 1/2⟩ true (1/100) 0).mode_text = "RUN " :=
  override_forces_run _ true (1/100) 0 (by norm_num)

/-- The freeze-implies-hold invariant is preserved along any run. -/
theorem runOps_inv : ∀ (ops : List Op) (s : Shared),
    (s.collision_freeze = true → s.hold_mode = true) →
    ((runOps s ops).collision_freeze = true → (runOps s ops).hold_mode = true) := by
  intro ops
  induction ops with
  | nil => intro s hs; exact hs
  | cons op rest ih =>
      intro s hs
      exact ih (applyOp s op) (applyOp_inv s op hs)

/-- C6.  In every state reachable from the initial shared state by any
interleaving of ticks, `set_goal`, `nudge` and `go`,
`collision_freeze = true` implies `hold_mode = true`. -/
theorem runOps_freeze_imp_hold (g : V3) (ops : List Op)
    (h : (runOps (initShared g) ops).collision_freeze = true) :
    (runOps (initShared g) ops).hold_mode = true :=
  runOps_inv ops (initShared g) (by simp [initShared]) h

/-- Witness for `runOps_freeze_imp_hold`: a collided tick outside the
window from the initial state. -/
theorem runOps_freeze_imp_hold_witness :
    (runOps (initShared ⟨0, 0, 1⟩) [Op.tick true 1 1]).hold_mode = true :=
  runOps_freeze_imp_hold ⟨0, 0, 1⟩ [Op.tick true 1 1]
    (by norm_num [runOps, applyOp, tickFlags_eq, freezeAfter, initShared])

/-- C9 (code behaviour at the failing input class).  Whenever a tick ends
with `collision_freeze = true`, the label published at line 309 is
"HOLD", never "COLL": `hold_mode` is tested first and freeze implies
hold, so the "COLL" branch is dead at end of tick. -/
theorem frozen_tick_label_hold (s : Shared) (c : Bool) (d n : ℚ)
    (h : (tickFlags s c d n).collision_freeze = true) :
    (tickFlags s c d n).mode_text = "HOLD" ∧
      (tickFlags s c d n).mode_text ≠ "COLL" := by
  have hh := tickFlags_freeze_imp_hold s c d n h
  rw [tickFlags_eq] at hh ⊢
  simp only [labelOf]
  constructor
  · simp_all
  · simp_all

/-- Witness for `frozen_tick_label_hold`: a collided tick from the
initial state publishes "HOLD". -/
theorem frozen_tick_label_hold_witness :
    (tickFlags (initShared ⟨0, 0, 1⟩) true 1 1).mode_text = "HOLD" ∧
      (tickFlags (initShared ⟨0, 0, 1⟩) true 1 1).mode_text ≠ "COLL" :=
  frozen_tick_label_hold _ true 1 1
    (by norm_num [tickFlags_eq, freezeAfter, initShared])

/-- C5.  With no collision this tick, `collision_freeze` clear and the
override window expired: `hold_mode` moves exactly by the two hysteresis
rules, freeze stays clear, every distance in `[0.03, 0.05]` leaves the
mode unchanged, and a whole sequence of in-band distances produces no
mode toggle. -/
theorem hysteresis_band (s : Shared) (d n : ℚ)
    (hf : s.collision_freeze = false) (hn : s.manual_until ≤ n) :
    ((tickFlags s false d n).hold_mode =
        (if s.hold_mode = false ∧ d < 3/100 then true
         else if s.hold_mode = true ∧ 5/100 < d then false
         else s.hold_mode)) ∧
      (tickFlags s false d n).collision_freeze = false ∧
      (3/100 ≤ d → d ≤ 5/100 → (tickFlags s false d n).hold_mode = s.hold_mode) ∧
      (∀ ds : List ℚ, (∀ e ∈ ds, 3/100 ≤ e ∧ e ≤ 5/100) →
        (runOps s (ds.map fun e => Op.tick false e n)).hold_mode = s.hold_mode) := by
  refine ⟨?_, ?_, ?_, fun ds hds => band_no_chatter n ds s hf hn hds⟩
  · rw [tickFlags_eq]
    simp only [holdAfter, hystHold, hf, not_lt.mpr hn, if_neg (not_lt.mpr hn)]
    cases hs : s.hold_mode <;> split_ifs <;> simp_all
  · rw [tickFlags_eq]
    simp [freezeAfter, hf]
  · intro h1 h2
    exact (tick_band_fix s d n hf hn h1 h2).1

/-- Witness for `hysteresis_band` at a concrete in-band input. -/
theorem hysteresis_band_witness :
    (tickFlags ⟨⟨0, 0, 1⟩, true, false, true, false, "HOLD", 0⟩ false (1/25) 1).hold_mode =
        (if (true : Bool) = false ∧ (1/25 : ℚ) < 3/100 then true
         else if (true : Bool) = true ∧ (5/100 : ℚ) < 1/25 then false
         else true) ∧
      (tickFlags ⟨⟨0, 0, 1⟩, true, false, true, false, "HOLD", 0⟩ false (1/25) 1).collision_freeze = false ∧
      ((3/100 : ℚ) ≤ 1/25 → (1/25 : ℚ) ≤ 5/100 →
        (tickFlags ⟨⟨0, 0, 1⟩, true, false, true, false, "HOLD", 0⟩ false (1/25) 1).hold_mode = true) ∧
      (∀ ds : List ℚ, (∀ e ∈ ds, 3/100 ≤ e ∧ e ≤ 5/100) →
        (runOps ⟨⟨0, 0, 1⟩, true, false, true, false, "HOLD", 0⟩
          (ds.map fun e => Op.tick false e 1)).hold_mode = true) :=
  hysteresis_band ⟨⟨0, 0, 1⟩, true, false, true, false, "HOLD", 0⟩ (1/25) 1
    rfl (by norm_num)

/-- C1 counterexample.  A goal is set at time 0 (override until 0.5); the
tick at time 0.1 observes `collided_this_tick = true`; the only later
operation is a tick at time 0.2 — no external `go`/`set_goal` — yet
`collision_freeze` is false afterwards: the still-open override window
cleared it internally. -/
theorem sticky_collision_cex :
    ([Op.tick false 1 (2/10)].all (fun o => !isExternalClear o) = true) ∧
      (runOps (initShared ⟨3/10, 1/10, 9/10⟩)
        [Op.setGoal (3/10) (1/10) (9/10) 0, Op.tick true 1 (1/10),
         Op.tick false 1 (2/10)]).collision_freeze = false := by
  refine ⟨by simp [isExternalClear], ?_⟩
  norm_num [runOps, applyOp, tickFlags_eq, freezeAfter, holdAfter, hystHold,
    setGoalApply, initShared]

/-- C1 amended.  Once a tick observes a collision outside the override
window, `collision_freeze` is set and stays true across every subsequent
tick evaluated outside the window, regardless of distance — in
particular the hysteresis exit never clears it; only an external
`set_goal`/`go` or a tick inside a still-open override window can. -/
theorem sticky_collision_amended (s : Shared) (d n : ℚ) (ops : List Op)
    (hn : s.manual_until ≤ n)
    (hops : ops.all (ticksOutside s.manual_until) = true) :
    (runOps (tickFlags s true d n) ops).collision_freeze = true := by
  have h1 : (tickFlags s true d n).collision_freeze = true := by
    rw [tickFlags_eq]
    simp [freezeAfter, not_lt.mpr hn]
  have h2 := tickFlags_manual_until s true d n
  exact runOps_ticks_sticky ops (tickFlags s true d n) h1 (by rw [h2]; exact hops)

/-- Witness for `sticky_collision_amended`: collision at time 1, then
ticks at far and near distances; freeze survives both. -/
theorem sticky_collision_amended_witness :
    (runOps (tickFlags (initShared ⟨0, 0, 1⟩) true 1 1)
      [Op.tick false 10 2, Op.tick false (1/100) 3]).collision_freeze = true :=
  sticky_collision_amended (initShared ⟨0, 0, 1⟩) 1 1
    [Op.tick false 10 2, Op.tick false (1/100) 3] (by norm_num [initShared])
    (by norm_num [ticksOutside, initShared])

/-- C7.  Clamping is idempotent and lands componentwise in
`[low, high]`; every tick persists the clamped goal, so a second tick
with no intervening mutation reads and stores the same value. -/
theorem clamp_idempotent_bounds :
    (∀ g : V3, clamp3 (clamp3 g) = clamp3 g) ∧
      (∀ g : V3, lowBound.x ≤ (clamp3 g).x ∧ (clamp3 g).x ≤ highBound.x ∧
        lowBound.y ≤ (clamp3 g).y ∧ (clamp3 g).y ≤ highBound.y ∧
        lowBound.z ≤ (clamp3 g).z ∧ (clamp3 g).z ≤ highBound.z) ∧
      (∀ (s : Shared) (c : Bool) (d n : ℚ),
        (tickFlags s c d n).goal = clamp3 s.goal) ∧
      (∀ (s : Shared) (c c' : Bool) (d n d' n' : ℚ),
        (tickFlags (tickFlags s c d n) c' d' n').goal = (tickFlags s c d n).goal) := by
  refine ⟨clamp3_idem, ?_, tickFlags_goal, ?_⟩
  · intro g
    exact ⟨(clip_spec g.x _ _ (by norm_num [lowBound, highBound])).1,
      (clip_spec g.x _ _ (by norm_num [lowBound, highBound])).2.1,
      (clip_spec g.y _ _ (by norm_num [lowBound, highBound])).1,
      (clip_spec g.y _ _ (by norm_num [lowBound, highBound])).2.1,
      (clip_spec g.z _ _ (by norm_num [lowBound, highBound])).1,
      (clip_spec g.z _ _ (by norm_num [lowBound, highBound])).2.1⟩
  · intro s c c' d n d' n'
    rw [tickFlags_goal, tickFlags_goal, clamp3_idem]

/-- One entry of `env.data.contact`: the two geometry ids, whether the
body of each geometry has "hand" in its name, and the signed contact
distance (negative when penetrating). -/
structure Contact where
  geom1 : Nat
  geom2 : Nat
  body1_hand : Bool
  body2_hand : Bool
  dist : ℚ
deriving DecidableEq, Repr

/-- The arm/protected pairing test of line 227. -/
def armProtPair (arm prot : List Nat) (c : Contact) : Bool :=
  (arm.contains c.geom1 && prot.contains c.geom2) ||
    (arm.contains c.geom2 && prot.contains c.geom1)

/-- Penetration depth `max(0.0, -c.dist)` (line 228). -/
def penetration (c : Contact) : ℚ := max 0 (-c.dist)

/-- The contact scan of lines 215-232, with the source's skip/short-circuit
structure: hand contacts are skipped, a qualifying arm/protected pair with
penetration not below 2 mm stops the scan with `collided = true`. -/
def scanCollided (arm prot : List Nat) : List Contact → Bool
  | [] => false
  | c :: rest =>
    if c.body1_hand || c.body2_hand then scanCollided arm prot rest
    else if armProtPair arm prot c then
      if penetration c < 1/500 then scanCollided arm prot rest
      else true
    else scanCollided arm prot rest

/-- The per-contact condition the code actually enforces: arm/protected
pair, no hand body, penetration **not below** 2 mm. -/
def codeUnsafe (arm prot : List Nat) (c : Contact) : Bool :=
  !c.body1_hand && !c.body2_hand && armProtPair arm prot c &&
    !decide (penetration c < 1/500)

/-- The per-contact condition as the spec words it: penetration strictly
**exceeds** 2 mm. -/
def specUnsafe (arm prot : List Nat) (c : Contact) : Bool :=
  !c.body1_hand && !c.body2_hand && armProtPair arm prot c &&
    decide (1/500 < penetration c)

/-- The scan equals an existential over the per-contact code condition. -/
theorem scanCollided_eq_any (arm prot : List Nat) :
    ∀ cs : List Contact, scanCollided arm prot cs = cs.any (codeUnsafe arm prot) := by
  intro cs
  induction cs with
  | nil => rfl
  | cons c rest ih =>
      simp only [scanCollided, List.any_cons]
      by_cases hb : (c.body1_hand || c.body2_hand) = true
      · have hcu : codeUnsafe arm prot c = false := by
          rcases Bool.or_eq_true_iff.mp hb with h | h <;> simp [codeUnsafe, h]
        rw [if_pos hb, hcu, ih, Bool.false_or]
      · by_cases hp : armProtPair arm prot c = true
        · by_cases h3 : penetration c < 1/500
          · have hcu : codeUnsafe arm prot c = false := by
              simp only [codeUnsafe, decide_eq_true h3]
              simp
            rw [if_neg hb, if_pos hp, if_pos h3, hcu, ih, Bool.false_or]
          · have hb' := hb
            simp only [Bool.or_eq_true_iff, not_or, Bool.not_eq_true] at hb'
            have hcu : codeUnsafe arm prot c = true := by
              simp only [codeUnsafe, decide_eq_false h3]
              simp [hb'.1, hb'.2, hp]
            rw [if_neg hb, if_pos hp, if_neg h3, hcu, Bool.true_or]
        · have hp' : armProtPair arm prot c = false := by simpa using hp
          have hcu : codeUnsafe arm prot c = false := by simp [codeUnsafe, hp']
          rw [if_neg hb, if_neg hp, hcu, ih, Bool.false_or]

/-- A contact that pairs an arm geometry with a protected geometry at
exactly 2 mm penetration: the code collides, the spec's strict
"exceeds 2 mm" does not. -/
def boundaryContact : Contact := ⟨1, 2, false, false, -(1/500)⟩

/-- C4 counterexample.  At exactly 2 mm penetration the scan reports a
collision although no contact satisfies the claim's strict "penetration
exceeds 0.002" condition, so the claimed equivalence fails. -/
theorem collision_scan_cex :
    scanCollided [1] [2] [boundaryContact] = true ∧
      [boundaryContact].any (specUnsafe [1] [2]) = false := by
  constructor
  · norm_num [scanCollided, boundaryContact, armProtPair, penetration]
  · norm_num [specUnsafe, boundaryContact, armProtPair, penetration]

/-- C4 amended.  `collided_this_tick` is true iff some contact pairs an
arm geometry with a protected geometry, neither body is hand-related,
and the penetration depth is **at least** 0.002 m (the scan skips only
penetrations strictly below 2 mm); the scan is a pure read that stops at
the first qualifying contact. -/
theorem collision_scan_iff (arm prot : List Nat) (cs : List Contact) :
    scanCollided arm prot cs = true ↔
      ∃ c ∈ cs, (c.body1_hand = false ∧ c.body2_hand = false ∧
        armProtPair arm prot c = true ∧ 1/500 ≤ penetration c) := by
  rw [scanCollided_eq_any, List.any_eq_true]
  constructor
  · rintro ⟨c, hc, hq⟩
    simp only [codeUnsafe, Bool.and_eq_true, Bool.not_eq_true',
      decide_eq_false_iff_not, not_lt] at hq
    exact ⟨c, hc, hq.1.1.1, hq.1.1.2, hq.1.2, hq.2⟩
  · rintro ⟨c, hc, hq1, hq2, hq3, hq4⟩
    refine ⟨c, hc, ?_⟩
    simp [codeUnsafe, hq1, hq2, hq3]
    simpa using hq4

/-- Witness for `collision_scan_iff`: a 3 mm penetrating arm/protected
contact after a skipped hand contact. -/
theorem collision_scan_iff_witness :
    scanCollided [1] [2] [⟨1, 2, true, false, -1⟩, ⟨1, 2, false, false, -(3/1000)⟩] = true :=
  (collision_scan_iff [1] [2] _).mpr
    ⟨⟨1, 2, false, false, -(3/1000)⟩, by simp, rfl, rfl,
      by norm_num [armProtPair], by norm_num [penetration]⟩

/-- The simulation's readable configuration: joint positions, joint
velocities and its live goal slot (`qpos`, `qvel`, `p_goal`). -/
structure EnvState where
  qpos : List ℚ
  qvel : List ℚ
  goal : V3
deriving DecidableEq, Repr

/-- Inputs the environment supplies to one RUN-branch tick: this tick's
collision-scan result, the post-`env.step` configuration, the `done`
flag returned by the step, and the configuration `env.reset()` would
leave behind. -/
structure RunTickIn where
  collided : Bool
  post : EnvState
  done : Bool
  resetPose : EnvState
deriving DecidableEq, Repr

/-- The RUN branch of lines 257-272, threading `last_safe_qpos`: after
the step, snapshot `qpos` if the tick was clean; on `done`, reset, then
overwrite `qpos` with the snapshot when one exists and zero `qvel`, and
re-apply the current clamped goal `pg` (the loop also wrote `pg` into the
live goal at the top of the tick). -/
def stepRun (pg : V3) (st : Option (List ℚ) × EnvState) (t : RunTickIn) :
    Option (List ℚ) × EnvState :=
  let lastSafe := if t.collided then st.1 else some t.post.qpos
  if t.done then
    match lastSafe with
    | some q => (lastSafe, ⟨q, t.resetPose.qvel.map (fun _ => 0), pg⟩)
    | none => (lastSafe, { t.resetPose with goal := pg })
  else (lastSafe, { t.post with goal := pg })

/-- The `last_safe_qpos` update in isolation (lines 261-262): keep the
old snapshot on a collided tick, else snapshot this tick's post-step
positions. -/
def snapUpd (last : Option (List ℚ)) (t : RunTickIn) : Option (List ℚ) :=
  if t.collided then last else some t.post.qpos

/-- The post-step positions of the last tick in `ts` not flagged
collided, or the prior snapshot when every tick was collided. -/
def lastCleanSnap (last0 : Option (List ℚ)) (ts : List RunTickIn) :
    Option (List ℚ) :=
  match ts.reverse.find? (fun u => !u.collided) with
  | some u => some u.post.qpos
  | none => last0

/-- The snapshot component of a RUN tick is exactly the `last_safe_qpos`
update. -/
theorem stepRun_fst (pg : V3) (st : Option (List ℚ) × EnvState) (t : RunTickIn) :
    (stepRun pg st t).1 = snapUpd st.1 t := by
  unfold stepRun snapUpd
  dsimp only
  split
  · cases h : (if t.collided = true then st.1 else some t.post.qpos) <;> rfl
  · rfl

/-- Threading RUN ticks threads the snapshot updates. -/
theorem foldl_stepRun_fst (pg : V3) : ∀ (ts : List RunTickIn)
    (st : Option (List ℚ) × EnvState),
    (ts.foldl (stepRun pg) st).1 = ts.foldl snapUpd st.1 := by
  intro ts
  induction ts with
  | nil => intro st; rfl
  | cons t rest ih =>
      intro st
      simp only [List.foldl_cons]
      rw [ih (stepRun pg st t), stepRun_fst]

/-- Folding the snapshot updates lands on the last clean tick's
post-step positions. -/
theorem foldl_snapUpd_lastClean : ∀ (ts : List RunTickIn)
    (last0 : Option (List ℚ)),
    ts.foldl snapUpd last0 = lastCleanSnap last0 ts := by
  intro ts
  induction ts with
  | nil => intro last0; rfl
  | cons t rest ih =>
      intro last0
      simp only [List.foldl_cons, ih]
      unfold lastCleanSnap
      simp only [List.reverse_cons, List.find?_append]
      cases hf : rest.reverse.find? (fun u => !u.collided) with
      | some u => simp [Option.or]
      | none =>
          by_cases hc : t.collided = true
          · simp [Option.or, List.find?, hc, snapUpd]
          · have hc' : t.collided = false := by simpa using hc
            simp [Option.or, List.find?, hc', snapUpd]

/-- A clean RUN tick with nonzero joint velocities, terminating. -/
def cleanDoneTick : RunTickIn :=
  { collided := false, post := ⟨[1], [2], ⟨0, 0, 1⟩⟩, done := true,
    resetPose := ⟨[9], [7], ⟨0, 0, 1⟩⟩ }

/-- C3 counterexample.  The terminating tick is itself the last clean
tick, with snapshot position `[1]` and velocity `[2]`; after the reset
the positions are `[1]` but the velocities are zeroed to `[0]`, so the
post-reset configuration does **not** equal the (position, velocity)
configuration captured at the last clean tick. -/
theorem safe_rollback_cex :
    cleanDoneTick.collided = false ∧ cleanDoneTick.done = true ∧
      (stepRun ⟨0, 0, 1⟩ (none, ⟨[5], [5], ⟨0, 0, 1⟩⟩) cleanDoneTick).2.qpos =
        cleanDoneTick.post.qpos ∧
      (stepRun ⟨0, 0, 1⟩ (none, ⟨[5], [5], ⟨0, 0, 1⟩⟩) cleanDoneTick).2.qvel = [0] ∧
      cleanDoneTick.post.qvel = [2] ∧ (0 : ℚ) ≠ 2 := by
  refine ⟨rfl, rfl, rfl, rfl, rfl, by norm_num⟩

/-- C3 amended.  On episode termination in a RUN tick, when a safe
snapshot exists after this tick's update: the post-reset joint
**positions** equal the snapshot (which is the post-step `qpos` of the
last tick not flagged collided — this very tick when it is clean), the
joint **velocities** are zeroed rather than restored or left at the
default reset pose, and the current clamped goal is re-applied; the
default reset pose's positions are discarded.  Along any sequence of RUN
ticks the threaded snapshot is exactly the post-step positions of the
last tick not flagged collided. -/
theorem safe_rollback (pg : V3) (st : Option (List ℚ) × EnvState)
    (t : RunTickIn) (s : List ℚ)
    (hdone : t.done = true)
    (hsnap : (if t.collided then st.1 else some t.post.qpos) = some s) :
    (stepRun pg st t).2.qpos = s ∧
      (stepRun pg st t).2.qvel = t.resetPose.qvel.map (fun _ => 0) ∧
      (stepRun pg st t).2.goal = pg ∧
      (stepRun pg st t).1 = some s ∧
      (t.collided = false → s = t.post.qpos) ∧
      (∀ (ts : List RunTickIn) (st0 : Option (List ℚ) × EnvState),
        (ts.foldl (stepRun pg) st0).1 = lastCleanSnap st0.1 ts) := by
  have hc : t.collided = false → s = t.post.qpos := by
    intro hcf
    rw [hcf] at hsnap
    simpa using hsnap.symm
  have htrace : ∀ (ts : List RunTickIn) (st0 : Option (List ℚ) × EnvState),
      (ts.foldl (stepRun pg) st0).1 = lastCleanSnap st0.1 ts :=
    fun ts st0 => (foldl_stepRun_fst pg ts st0).trans (foldl_snapUpd_lastClean ts st0.1)
  unfold stepRun
  rw [hsnap, if_pos hdone]
  exact ⟨rfl, rfl, rfl, rfl, hc, htrace⟩

/-- Witness for `safe_rollback`: a clean terminating tick restores its
own post-step positions with zeroed velocities. -/
theorem safe_rollback_witness :
    (stepRun ⟨0, 0, 1⟩ (none, ⟨[5], [5], ⟨0, 0, 1⟩⟩) cleanDoneTick).2.qpos = [1] ∧
      (stepRun ⟨0, 0, 1⟩ (none, ⟨[5], [5], ⟨0, 0, 1⟩⟩) cleanDoneTick).2.qvel =
        cleanDoneTick.resetPose.qvel.map (fun _ => 0) ∧
      (stepRun ⟨0, 0, 1⟩ (none, ⟨[5], [5], ⟨0, 0, 1⟩⟩) cleanDoneTick).2.goal = ⟨0, 0, 1⟩ ∧
      (stepRun ⟨0, 0, 1⟩ (none, ⟨[5], [5], ⟨0, 0, 1⟩⟩) cleanDoneTick).1 = some [1] ∧
      (cleanDoneTick.collided = false → [1] = cleanDoneTick.post.qpos) ∧
      ([cleanDoneTick].foldl (stepRun ⟨0, 0, 1⟩) (none, ⟨[5], [5], ⟨0, 0, 1⟩⟩)).1 =
        lastCleanSnap none [cleanDoneTick] := by
  have h := safe_rollback ⟨0, 0, 1⟩ (none, ⟨[5], [5], ⟨0, 0, 1⟩⟩) cleanDoneTick [1] rfl rfl
  exact ⟨h.1, h.2.1, h.2.2.1, h.2.2.2.1, h.2.2.2.2.1,
    h.2.2.2.2.2 [cleanDoneTick] (none, ⟨[5], [5], ⟨0, 0, 1⟩⟩)⟩

/-- Per-tick inputs seen by the robot output gate: the arbiter inputs,
the bus-connectivity flag `robot.ok`, and the wall-clock time read at
line 275 just before the send check. -/
structure GateIn where
  collided : Bool
  dist : ℚ
  now : ℚ
  robot_ok : Bool
  send_now : ℚ
deriving DecidableEq, Repr

/-- Control-loop state relevant to output gating: the shared state, the
loop-local `last_robot_send` (initially `0.0`), and the history of send
timestamps (what `robot.send_qpos` was invoked at). -/
structure LoopState where
  shared : Shared
  last_robot_send : ℚ
  sends : List ℚ
deriving DecidableEq, Repr

/-- Two successive sends are separated by more than 0.02 s. -/
def sendRel (a b : ℚ) : Prop := a + 1/50 < b

/-- One tick of the loop including the robot streaming block of lines
274-306: the arbiter update, then a send exactly when
`out_robot and robot.ok and (now - last_robot_send) > 0.02`
(`out_robot` itself being `shared.out_robot and robot.ok` captured at the
top of the tick), recording the timestamp. -/
def tickLoop (st : LoopState) (t : GateIn) : LoopState :=
  let out_robot := st.shared.out_robot && t.robot_ok
  let sh := tickFlags st.shared t.collided t.dist t.now
  if out_robot = true ∧ t.robot_ok = true ∧ 1/50 < t.send_now - st.last_robot_send then
    { shared := sh, last_robot_send := t.send_now, sends := st.sends ++ [t.send_now] }
  else
    { shared := sh, last_robot_send := st.last_robot_send, sends := st.sends }

/-- Gate invariant: the send history stays `sendRel`-chained and its last
entry never exceeds `last_robot_send`. -/
theorem gate_chain : ∀ (ts : List GateIn) (st : LoopState),
    List.Chain' sendRel st.sends →
    (∀ x ∈ st.sends.getLast?, x ≤ st.last_robot_send) →
    List.Chain' sendRel ((ts.foldl tickLoop st).sends) ∧
      ∀ x ∈ ((ts.foldl tickLoop st).sends).getLast?,
        x ≤ (ts.foldl tickLoop st).last_robot_send := by
  intro ts
  induction ts with
  | nil => intro st h1 h2; exact ⟨h1, h2⟩
  | cons t rest ih =>
      intro st h1 h2
      apply ih
      · unfold tickLoop
        dsimp only
        split
        · rename_i hg
          dsimp only
          rw [List.chain'_append]
          refine ⟨h1, List.chain'_singleton _, ?_⟩
          intro x hx y hy
          simp only [List.head?_cons, Option.mem_def, Option.some.injEq] at hy
          subst hy
          have hx' := h2 x hx
          unfold sendRel
          linarith [hg.2.2]
        · exact h1
      · unfold tickLoop
        dsimp only
        split
        · rename_i hg
          dsimp only
          intro x hx
          rw [List.getLast?_concat] at hx
          simp only [Option.mem_def, Option.some.injEq] at hx
          subst hx
          exact le_refl _
        · exact h2

/-- C8.  (i) A send happens in a tick only when robot output is enabled,
the bus is connected and more than 0.02 s elapsed since the last send,
and then it appends exactly this tick's timestamp; (ii) along any run
from a fresh loop, consecutive send timestamps always differ by more
than 0.02 s; (iii) the send block never alters the goal or arbiter
state; (iv) a disabled robot output or a lost bus stops sends and leaves
the send clock untouched. -/
theorem rate_limited_output :
    (∀ (st : LoopState) (t : GateIn), (tickLoop st t).sends ≠ st.sends →
      st.shared.out_robot = true ∧ t.robot_ok = true ∧
        1/50 < t.send_now - st.last_robot_send ∧
        (tickLoop st t).sends = st.sends ++ [t.send_now]) ∧
      (∀ (sh : Shared) (ts : List GateIn),
        List.Chain' sendRel ((ts.foldl tickLoop ⟨sh, 0, []⟩).sends)) ∧
      (∀ (st : LoopState) (t : GateIn),
        (tickLoop st t).shared = tickFlags st.shared t.collided t.dist t.now) ∧
      (∀ (st : LoopState) (t : GateIn),
        st.shared.out_robot = false ∨ t.robot_ok = false →
        (tickLoop st t).sends = st.sends ∧
          (tickLoop st t).last_robot_send = st.last_robot_send) := by
  refine ⟨?_, ?_, ?_, ?_⟩
  · intro st t hne
    unfold tickLoop at hne ⊢
    dsimp only at hne ⊢
    split at hne
    · rename_i hg
      rw [if_pos hg]
      exact ⟨(Bool.and_eq_true_iff.mp hg.1).1, hg.2.1, hg.2.2, rfl⟩
    · exact absurd rfl hne
  · intro sh ts
    exact (gate_chain ts ⟨sh, 0, []⟩ List.chain'_nil (by simp)).1
  · intro st t
    unfold tickLoop
    dsimp only
    split <;> rfl
  · intro st t hoff
    have hg : ¬((st.shared.out_robot && t.robot_ok) = true ∧ t.robot_ok = true ∧
        1/50 < t.send_now - st.last_robot_send) := by
      rcases hoff with h | h <;> intro hc
      · rw [h] at hc
        simp at hc
      · rw [h] at hc
        simp at hc
    unfold tickLoop
    dsimp only
    rw [if_neg hg]
    exact ⟨rfl, rfl⟩

/-- Witness for `rate_limited_output`: an enabled, connected tick at
time 1 sends; a disabled robot output sends nothing. -/
theorem rate_limited_output_witness :
    ((tickLoop ⟨{ initShared ⟨0, 0, 1⟩ with out_robot := true }, 0, []⟩
        ⟨false, 1, 1, true, 1⟩).sends = [] ++ [(1 : ℚ)]) ∧
      (tickLoop ⟨initShared ⟨0, 0, 1⟩, 0, []⟩ ⟨false, 1, 1, true, 1⟩).sends = [] := by
  constructor
  · exact (rate_limited_output.1 ⟨{ initShared ⟨0, 0, 1⟩ with out_robot := true }, 0, []⟩
      ⟨false, 1, 1, true, 1⟩ (by norm_num [tickLoop, initShared])).2.2.2
  · exact (rate_limited_output.2.2.2 ⟨initShared ⟨0, 0, 1⟩, 0, []⟩
      ⟨false, 1, 1, true, 1⟩ (Or.inl rfl)).1

/-- A JSON field value as the handlers consume it: either something
`float()` converts (a number or a numeric string), or a value on which
`float()` raises. -/
inductive JVal where
  | num (q : ℚ)
  | junk
deriving DecidableEq, Repr

/-- Python `float(v)`: yields the number, or raises (modelled as
`Except.error`, which Flask surfaces as an HTTP 500). -/
def pyFloat : JVal → Except Unit ℚ
  | .num q => .ok q
  | .junk => .error ()

/-- Body of a `/nudge` request; `none` marks an absent key. -/
structure NudgeBody where
  axis : Option String
  delta : Option JVal
deriving Repr

/-- Body of a `/set_goal` request; `none` marks an absent key. -/
structure GoalBody where
  x : Option JVal
  y : Option JVal
  z : Option JVal
deriving Repr

/-- The `/nudge` handler (lines 398-409): `axis` defaults to the empty
string and is lowercased, `delta` defaults to `0.0`; a non-convertible
delta raises before any mutation; an unrecognised axis falls through
silently and the handler still answers success. -/
def nudgeHandler (s : Shared) (b : NudgeBody) : Except Unit Shared :=
  let axis := (b.axis.getD "").toLower
  match pyFloat (b.delta.getD (.num 0)) with
  | .error e => .error e
  | .ok delta => .ok (nudgeApply s axis delta)

/-- The `/set_goal` handler (lines 412-423): each missing coordinate
defaults to `0.0`; a non-convertible coordinate raises before any
mutation; otherwise the raw point is stored, the safety flags cleared
and the override window extended. -/
def setGoalHandler (s : Shared) (now : ℚ) (b : GoalBody) : Except Unit Shared :=
  match pyFloat (b.x.getD (.num 0)), pyFloat (b.y.getD (.num 0)),
      pyFloat (b.z.getD (.num 0)) with
  | .ok x, .ok y, .ok z => .ok (setGoalApply s x y z now)
  | _, _, _ => .error ()

/-- C10 counterexample.  A `/set_goal` request with every coordinate
missing is malformed, yet it is not rejected: the handler answers
success, the goal store receives `(0, 0, 0)` (overwriting the previous
goal), the safety flags are cleared and the override window extended. -/
theorem invalid_input_cex :
    setGoalHandler (initShared ⟨1/5, 0, 4/5⟩) 0 ⟨none, none, none⟩ =
      .ok { goal := ⟨0, 0, 0⟩, out_sim := true, out_robot := false,
            hold_mode := false, collision_freeze := false,
            mode_text := "HOLD", manual_until := 1/2 } ∧
      (⟨1/5, 0, 4/5⟩ : V3) ≠ ⟨0, 0, 0⟩ := by
  constructor
  · norm_num [setGoalHandler, pyFloat, setGoalApply, initShared]
  · intro h
    have := congrArg V3.x h
    norm_num at this

/-- C10 amended.  Malformed requests are not uniformly rejected: only a
non-convertible (`float()`-raising) delta or coordinate produces a
client-visible error, and it does so before any mutation; a missing or
unrecognised axis name is silently accepted with the goal and all flags
unchanged; missing coordinates default to `0.0` and **do** reach the
goal store, clearing the safety flags and extending the override
window. -/
theorem invalid_input_behaviour :
    (∀ (s : Shared) (a : Option String),
      nudgeHandler s ⟨a, some .junk⟩ = .error ()) ∧
      (∀ (s : Shared) (now : ℚ) (y z : Option JVal),
        setGoalHandler s now ⟨some .junk, y, z⟩ = .error ()) ∧
      (∀ (s : Shared) (a : String) (q : ℚ),
        a.toLower ≠ "x" → a.toLower ≠ "y" → a.toLower ≠ "z" →
        nudgeHandler s ⟨some a, some (.num q)⟩ = .ok s) ∧
      (∀ (s : Shared) (now : ℚ),
        setGoalHandler s now ⟨none, none, none⟩ = .ok (setGoalApply s 0 0 0 now)) := by
  refine ⟨fun s a => rfl, fun s now y z => ?_, ?_, fun s now => rfl⟩
  · cases y <;> cases z <;> rfl
  · intro s a q h1 h2 h3
    have hnp : nudgeApply s a.toLower q = s := by
      unfold nudgeApply
      rw [if_neg h1, if_neg h2, if_neg h3]
    simp only [nudgeHandler, Option.getD_some, pyFloat]
    rw [hnp]

/-- Witness for `invalid_input_behaviour`: a nudge along axis "w" is a
silent no-op. -/
theorem invalid_input_behaviour_witness :
    nudgeHandler (initShared ⟨1/5, 0, 4/5⟩) ⟨some "w", some (.num (1/50))⟩ =
      .ok (initShared ⟨1/5, 0, 4/5⟩) :=
  invalid_input_behaviour.2.2.1 (initShared ⟨1/5, 0, 4/5⟩) "w" (1/50)
    (by rw [String.toLower, String.map_eq]; decide)
    (by rw [String.toLower, String.map_eq]; decide)
    (by rw [String.toLower, String.map_eq]; decide)

end Pnp
